import Mathlib

/-!
Verification development for the AI Study Assistant backend
(`src/backend/server.js`, plus the single-file variant of the summarize
route, `src/unnamed/part_000`).

The JavaScript code is shallowly embedded: external facilities (the
`pdf-parse` / `mammoth` / `officeparser` / `fs.readFile` extraction
libraries, the Gemini AI call, and `JSON.parse`) are fields of an
environment `Env`; route handlers are functions on that environment plus
the request body, returning an HTTP-level response together with the
effects they performed (file unlinks, AI invocations, extraction-library
invocations).  JavaScript exceptions are the error component of the
result (`Except String`), and the `catch` block of each route maps a
thrown error to the 500 response exactly as the source does.

Block scoping of `const` declarations matters in this code base (two
identifiers are read outside the block that declares them), so reads of
identifiers whose binding is in question are embedded as an explicit
lookup in the list of string-valued bindings actually in scope at the
read; a missing binding produces the Node.js ReferenceError message
`<name> is not defined`, which then flows to the catch block like any
other thrown error.
-/

/-! ## Basic string helpers (models of the JS string operations used) -/

/-- Model of the character class trimmed by JavaScript `String.prototype.trim`
(restricted to the ASCII whitespace actually arising here). -/
def isJsWhitespace (c : Char) : Bool :=
  c == ' ' || c == '\t' || c == '\n' || c == '\r' || c == '\x0b' || c == '\x0c'

/-- Model of JS `trim()`: drop leading and trailing whitespace. -/
def trimChars (l : List Char) : List Char :=
  ((l.dropWhile isJsWhitespace).reverse.dropWhile isJsWhitespace).reverse

/-- Model of JS `String.prototype.toLowerCase` (character-wise). -/
def strToLower (s : String) : String :=
  String.mk (s.data.map Char.toLower)

/-- Model of JS `Array.prototype.join(sep)` on an array of strings. -/
def joinWith (sep : String) : List String → String
  | [] => ""
  | [x] => x
  | x :: y :: xs => x ++ sep ++ joinWith sep (y :: xs)

/-- Characters after the last `/` of a path (the basename), as used by
Node's `path.extname`. -/
def basenameChars (l : List Char) : List Char :=
  l.foldl (fun acc c => if c == '/' then [] else acc ++ [c]) []

/-- Suffix of a character list starting at its last `.`, if any. -/
def lastDotSuffix : List Char → Option (List Char)
  | [] => none
  | '.' :: cs =>
      match lastDotSuffix cs with
      | some r => some r
      | none => some ('.' :: cs)
  | _ :: cs => lastDotSuffix cs

/-- Model of Node `path.extname`: the suffix of the basename from its last
dot; empty when the basename has no dot, or when its only dot is the
leading character (dotfiles). -/
def extname (p : String) : String :=
  match basenameChars p.data with
  | [] => ""
  | _ :: bs =>
      match lastDotSuffix bs with
      | some r => String.mk r
      | none => ""

/-! ## Markdown fence stripping (server.js line 443)

`quizText.replace(/\x60\x60\x60json\n?/g, '').replace(/\x60\x60\x60\n?/g, '').trim()`:
every occurrence of three backticks followed by `json` and an optional
newline is removed, then every occurrence of three backticks with an
optional newline, then the result is trimmed.  The two global
replacements are modelled as left-to-right scans that skip each match,
exactly as a global regex replacement of these literal patterns does. -/

/-- First replacement: remove every occurrence of ```` ```json ````
(optionally followed by a newline). -/
def stripJsonFences : List Char → List Char
  | '\x60' :: '\x60' :: '\x60' :: 'j' :: 's' :: 'o' :: 'n' :: '\n' :: rest =>
      stripJsonFences rest
  | '\x60' :: '\x60' :: '\x60' :: 'j' :: 's' :: 'o' :: 'n' :: rest =>
      stripJsonFences rest
  | c :: cs => c :: stripJsonFences cs
  | [] => []

/-- Second replacement: remove every occurrence of three backticks
(optionally followed by a newline). -/
def stripFences : List Char → List Char
  | '\x60' :: '\x60' :: '\x60' :: '\n' :: rest => stripFences rest
  | '\x60' :: '\x60' :: '\x60' :: rest => stripFences rest
  | c :: cs => c :: stripFences cs
  | [] => []

/-- The whole clean-up applied to the AI quiz response (server.js 443):
strip ```` ```json ```` markers, then ```` ``` ```` markers, then trim. -/
def cleanQuiz (s : String) : String :=
  String.mk (trimChars (stripFences (stripJsonFences s.data)))

/-! ## Environment, effects, and the handler computation type -/

/-- A parsed JSON value, the result type of `JSON.parse` as far as the
quiz validation code observes it. -/
inductive JsonVal where
  | null : JsonVal
  | bool : Bool → JsonVal
  | num : Int → JsonVal
  | str : String → JsonVal
  | arr : List JsonVal → JsonVal
  | obj : List (String × JsonVal) → JsonVal

/-- External facilities the server consumes (server.js lines 14–19, 34):
the raw extraction libraries, Gemini (`model.generateContent` composed
with `response.text()`), and `JSON.parse`.  Each may fail, modelling a
thrown library/provider error. -/
structure Env where
  pdfLib : String → Except String String
  wordLib : String → Except String String
  pptLib : String → Except String String
  txtLib : String → Except String String
  ai : String → Except String String
  jsonParse : String → Except String JsonVal

/-- Effects a request handler performs, in order of occurrence:
files unlinked (`fs.unlink`), prompts sent to the AI service, and
extraction libraries invoked. -/
structure Effects where
  unlinked : List String
  aiCalls : List String
  libsUsed : List String
deriving DecidableEq

def emptyEffects : Effects := ⟨[], [], []⟩

/-- A handler computation: state-passing over `Effects`, with a thrown
JS error as the `Except.error` component (the state survives a throw,
as performed effects do in JS). -/
def M (α : Type) : Type := Effects → Except String α × Effects

def M.pure {α : Type} (a : α) : M α := fun s => (Except.ok a, s)

def M.bind {α β : Type} (m : M α) (f : α → M β) : M β := fun s =>
  match m s with
  | (Except.ok a, s') => f a s'
  | (Except.error e, s') => (Except.error e, s')

def M.throw {α : Type} (e : String) : M α := fun s => (Except.error e, s)

/-- `await fs.unlink(p)` (modelled as always succeeding: the handlers only
unlink files that multer just created). -/
def unlink (p : String) : M Unit := fun s =>
  (Except.ok (), { s with unlinked := s.unlinked ++ [p] })

def unlinkAll : List String → M Unit
  | [] => M.pure ()
  | p :: ps => M.bind (unlink p) (fun _ => unlinkAll ps)

/-- `model.generateContent(prompt)` + `response.text()`: records the
invocation and returns the provider's result (or rethrows its error). -/
def callAI (env : Env) (prompt : String) : M String := fun s =>
  (env.ai prompt, { s with aiCalls := s.aiCalls ++ [prompt] })

/-- Reading an identifier: JS resolves the name against the bindings in
scope; an unbound name throws the Node ReferenceError
`<name> is not defined`.  `bindings` lists the string-valued bindings
actually in scope at the read site. -/
def lookupStrM (bindings : List (String × String)) (x : String) : M String := fun s =>
  match bindings.find? (fun p => p.fst == x) with
  | some p => (Except.ok p.snd, s)
  | none => (Except.error (x ++ " is not defined"), s)

/-! ## Extraction helpers (server.js lines 104–194) -/

/-- `readPDF` (lines 104–117): call `pdf-parse`; on a library error, log
and throw `Failed to read PDF file`.  The second component records the
extraction library invoked. -/
def readPDF (env : Env) (filePath : String) : Except String String × List String :=
  (match env.pdfLib filePath with
   | Except.ok data => Except.ok data
   | Except.error _ => Except.error "Failed to read PDF file",
   ["pdf-parse"])

/-- `readWord` (lines 124–137): `mammoth.extractRawText`. -/
def readWord (env : Env) (filePath : String) : Except String String × List String :=
  (match env.wordLib filePath with
   | Except.ok v => Except.ok v
   | Except.error _ => Except.error "Failed to read Word document",
   ["mammoth"])

/-- `readPowerPoint` (lines 144–154): `officeParser.parseOfficeAsync`. -/
def readPowerPoint (env : Env) (filePath : String) : Except String String × List String :=
  (match env.pptLib filePath with
   | Except.ok t => Except.ok t
   | Except.error _ => Except.error "Failed to read PowerPoint file",
   ["officeparser"])

/-- `readTextFile` (lines 161–170): `fs.readFile(filePath, 'utf-8')`. -/
def readTextFile (env : Env) (filePath : String) : Except String String × List String :=
  (match env.txtLib filePath with
   | Except.ok t => Except.ok t
   | Except.error _ => Except.error "Failed to read text file",
   ["fs.readFile"])

/-- `extractTextFromFile` (lines 177–194): dispatch on the lowercased
extension of the path; unknown extensions throw
`Unsupported file type` without touching any extraction library. -/
def extractTextFromFile (env : Env) (filePath : String) :
    Except String String × List String :=
  let extension := strToLower (extname filePath)
  if extension == ".pdf" then readPDF env filePath
  else if extension == ".docx" then readWord env filePath
  else if extension == ".pptx" then readPowerPoint env filePath
  else if extension == ".txt" then readTextFile env filePath
  else (Except.error "Unsupported file type", [])

/-- `extractTextFromFile` lifted into the handler computation (recording
the libraries invoked). -/
def extractTextM (env : Env) (filePath : String) : M String := fun s =>
  match extractTextFromFile env filePath with
  | (r, libs) => (r, { s with libsUsed := s.libsUsed ++ libs })

/-! ## Request/response model -/

/-- An uploaded file as multer hands it to the route (the fields the
handlers read: `originalname` and `path`). -/
structure UploadedFile where
  originalname : String
  path : String
deriving DecidableEq

/-- A route's JSON reply: 200 with a payload, 400 with an error message,
or 500 with an error message. -/
inductive Response (α : Type) where
  | ok : α → Response α
  | badRequest : String → Response α
  | serverError : String → Response α
deriving DecidableEq

def Response.isOk {α : Type} : Response α → Bool
  | Response.ok _ => true
  | _ => false

def Response.isServerError {α : Type} : Response α → Bool
  | Response.serverError _ => true
  | _ => false

/-- Success payload of the multi-file summarize route (server.js 284–293). -/
structure SummaryData where
  filename : String
  filesCount : Nat
  summary : String
  originalLength : Nat
  summaryLength : Nat
deriving DecidableEq

/-- Success payload of the single-file summarize route (part_000 274–282). -/
structure SingleSummaryData where
  filename : String
  summary : String
  originalLength : Nat
  summaryLength : Nat
deriving DecidableEq

/-- Success payload of the chat route (server.js 372–378). -/
structure ChatData where
  question : String
  answer : String
deriving DecidableEq

/-- JS truthiness of an optional string request-body field: absent
(`undefined`) and the empty string are falsy. -/
def jsTruthy : Option String → Bool
  | none => false
  | some s => !(s == "")

/-! ## Prompts (quoted from the source; braces written as escapes) -/

/-- Summarization prompt (server.js 262–267; identical text in part_000
254–259). -/
def summaryPrompt (extractedText : String) : String :=
  "You are a helpful study assistant. Please provide a clear, concise summary of the following study notes. Focus on the main concepts, key points, and important details. Format the summary with bullet points for easy reading.\n\nStudy Notes:\n"
  ++ extractedText ++ "\n\nSummary:"

/-- Chat prompt (server.js 346–361), typos preserved. -/
def chatPrompt (noteText question : String) : String :=
  "You are a helpful study assistant. A student has uploaded their study notes and has a question about them.\n\nStudy Notes:\n"
  ++ noteText ++ "\n\nStudent's Question:\n" ++ question
  ++ "\n\nInstructios:\n- Answer the questions based only on the information in the study notes above\n- If the answer is not in the notes, \"I dont see that information in your notes, but...\" and provide general help\n- Be clear, concise and educational\n- Use examples from the note when relevant\n- Format your response for easy reading\n\nAnswer:"

/-- Quiz prompt (server.js 408–435), indentation and typos preserved. -/
def quizPrompt (noteText : String) : String :=
  "You are a helpful study assistant. Generate a nultiple choice quiz based on the following study notes.\n    \n    Study Notes:\n    "
  ++ noteText
  ++ "\n    \n    Instructions:\n    - Generate 5 multiple choice questions that test understanding of the key concepts\n    - Each question should have 4 options (A, B, C, D)\n    - Only ONE option should be correct\n    - Questions should cover different topics from the notes\n    - Make questions challenging but fair\n    \n    IMPORTANT: Respond ONLY with valid JSON in this exact format, no markdown, no code blocks, no extra text:\n    \n    \x7b\n    \"questions\": [\n      \x7b\n        \"question\": \"What is the main concept?\x7d\",\n        \"options\": [\"Option A\", \"Option B\", \"Option C\", \"Option D\"],\n        \"correctAnswer\": 0\n    \x7d\n  ]\n  \x7d\n\x7d\n\nThe CorrectAnswer is the index (0, 1, 2, or 3) of the correct option.\n\nGenerate the quiz now:"

/-! ## Multi-document aggregation (server.js 233–243) -/

/-- The per-file provenance header the loop prepends. -/
def mkHeader (name : String) : String := "\n\n=== " ++ name ++ " ===\n\n"

/-- The loop body's accumulation, abstracted over the already-extracted
(name, text) pairs: `combinedText += header; combinedText += text`. -/
def aggregate (docs : List (String × String)) : String :=
  docs.foldl (fun acc d => acc ++ mkHeader d.fst ++ d.snd) ""

/-- The extraction loop of the multi-file summarize route (lines 235–243):
per file, `const filePath = file.path; const extractedText = await
extractTextFromFile(filePath)` (both block-scoped to this loop body),
then append the header and text to `combinedText`. -/
def extractLoopM (env : Env) : List UploadedFile → String → M String
  | [], combinedText => M.pure combinedText
  | file :: rest, combinedText =>
      M.bind (extractTextM env file.path) (fun extractedText =>
        extractLoopM env rest (combinedText ++ mkHeader file.originalname ++ extractedText))

/-! ## Route: POST /api/summarize, multi-file (server.js 220–315) -/

/-- The `try` block of the multi-file summarize handler.  After the loop,
lines 246–256 read `extractedText` (and, inside the empty-content branch,
`filePath`); both were declared with `const` inside the loop body, so the
only string-valued binding in scope at these reads is the handler-level
`combinedText` (line 233) — the reads are resolved by `lookupStrM`
against exactly that scope and throw a ReferenceError. -/
def summarizeMultiTry (env : Env) (files : List UploadedFile) : M (Response SummaryData) :=
  if files.length == 0 then
    M.pure (Response.badRequest "No files uploaded. Please upload at least one file.")
  else
    M.bind (extractLoopM env files "") (fun combinedText =>
    M.bind (lookupStrM [("combinedText", combinedText)] "extractedText") (fun extractedText =>
    if extractedText == "" || (trimChars extractedText.data).length == 0 then
      M.bind (lookupStrM [("combinedText", combinedText), ("extractedText", extractedText)] "filePath") (fun filePath =>
      M.bind (unlink filePath) (fun _ =>
      M.pure (Response.badRequest "Could not extract text from file. File may be empty or corrupted.")))
    else
      M.bind (callAI env (summaryPrompt extractedText)) (fun summary =>
      M.bind (unlinkAll (files.map (fun f => f.path))) (fun _ =>
      M.pure (Response.ok
        { filename := joinWith ", " (files.map (fun f => f.originalname)),
          filesCount := files.length,
          summary := summary,
          originalLength := combinedText.length,
          summaryLength := summary.length })))))

/-- The whole route: run the `try` block; the `catch` (lines 295–314)
unlinks every uploaded file (ignoring unlink errors) and responds 500
with the thrown error's message. -/
def summarizeMulti (env : Env) (files : List UploadedFile) :
    Response SummaryData × Effects :=
  match summarizeMultiTry env files emptyEffects with
  | (Except.ok r, s) => (r, s)
  | (Except.error e, s) =>
      (Response.serverError e,
       { s with unlinked := s.unlinked ++ files.map (fun f => f.path) })

/-! ## Route: POST /api/summarize, single-file variant (part_000 221–302) -/

/-- The `try` block of the single-file summarize handler: here
`extractedText` and `filePath` are declared in the handler block itself,
so the post-extraction empty-content check works as written. -/
def summarizeSingleTry (env : Env) (fileOpt : Option UploadedFile) :
    M (Response SingleSummaryData) :=
  match fileOpt with
  | none => M.pure (Response.badRequest "No file uploaded. Please upload a file.")
  | some file =>
    M.bind (extractTextM env file.path) (fun extractedText =>
    if extractedText == "" || (trimChars extractedText.data).length == 0 then
      M.bind (unlink file.path) (fun _ =>
      M.pure (Response.badRequest "Could not extract text from file. File may be empty or corrupted."))
    else
      M.bind (callAI env (summaryPrompt extractedText)) (fun summary =>
      M.bind (unlink file.path) (fun _ =>
      M.pure (Response.ok
        { filename := file.originalname,
          summary := summary,
          originalLength := extractedText.length,
          summaryLength := summary.length }))))

/-- The whole single-file route: the `catch` (part_000 284–301) unlinks
the uploaded file when one exists and responds 500. -/
def summarizeSingle (env : Env) (fileOpt : Option UploadedFile) :
    Response SingleSummaryData × Effects :=
  match summarizeSingleTry env fileOpt emptyEffects with
  | (Except.ok r, s) => (r, s)
  | (Except.error e, s) =>
      match fileOpt with
      | some file =>
          (Response.serverError e, { s with unlinked := s.unlinked ++ [file.path] })
      | none => (Response.serverError e, s)

/-! ## Route: POST /api/chat (server.js 318–389) -/

/-- The `try` block of the chat handler. -/
def chatTry (env : Env) (noteText question : Option String) : M (Response ChatData) :=
  if !(jsTruthy noteText) || !(jsTruthy question) then
    M.pure (Response.badRequest "Both noteText and question are required.")
  else
    match noteText, question with
    | some note, some q =>
      if (trimChars q.data).length == 0 then
        M.pure (Response.badRequest "Question cannot be empty.")
      else
        M.bind (callAI env (chatPrompt note q)) (fun answer =>
        M.pure (Response.ok { question := q, answer := answer }))
    | _, _ =>
      -- unreachable: both fields are truthy, hence present
      M.throw "unreachable"

/-- The whole chat route (catch: respond 500, no cleanup). -/
def chatRoute (env : Env) (noteText question : Option String) :
    Response ChatData × Effects :=
  match chatTry env noteText question emptyEffects with
  | (Except.ok r, s) => (r, s)
  | (Except.error e, s) => (Response.serverError e, s)

/-! ## Route: POST /api/generate-quiz (server.js 392–470) -/

/-- Property access `j.questions` on a parsed JSON value. -/
def jsonGet (j : JsonVal) (k : String) : Option JsonVal :=
  match j with
  | JsonVal.obj fields => (fields.find? (fun p => p.fst == k)).map (fun p => p.snd)
  | _ => none

/-- Post-processing of the AI quiz response (lines 440–453): strip fences
and trim, `JSON.parse` (its error is rethrown), then validate that the
result has a `questions` field holding an array — otherwise throw
`Invalid quiz format received from AI`.  (An array-valued `questions`
field is exactly what survives `!quizData.questions ||
!Array.isArray(quizData.questions)`: arrays are truthy.) -/
def quizPostProcess (env : Env) (responseText : String) : Except String JsonVal :=
  let quizText := cleanQuiz responseText
  match env.jsonParse quizText with
  | Except.error e => Except.error e
  | Except.ok quizData =>
      match jsonGet quizData "questions" with
      | some (JsonVal.arr _) => Except.ok quizData
      | _ => Except.error "Invalid quiz format received from AI"

/-- The `try` block of the quiz handler.  At line 438 the code calls
`model.generateContent(prompt)`, but no `model` is declared in this
handler (the `model` consts of the summarize and chat handlers are local
to those functions) nor at module level; the string-valued bindings in
scope at the read are the handler's `noteText` and `prompt`, so the read
of `model` is resolved by `lookupStrM` against exactly that scope and
throws a ReferenceError. -/
def quizTry (env : Env) (noteText : Option String) : M (Response JsonVal) :=
  if !(jsTruthy noteText) then
    M.pure (Response.badRequest "noteText is required.")
  else
    match noteText with
    | some note =>
      M.bind (lookupStrM [("noteText", note), ("prompt", quizPrompt note)] "model") (fun _ =>
      M.bind (callAI env (quizPrompt note)) (fun responseText =>
      match quizPostProcess env responseText with
      | Except.error e => M.throw e
      | Except.ok quizData => M.pure (Response.ok quizData)))
    | none =>
      -- unreachable: noteText is truthy, hence present
      M.throw "unreachable"

/-- The whole quiz route (catch, lines 461–469: respond 500). -/
def quizRoute (env : Env) (noteText : Option String) : Response JsonVal × Effects :=
  match quizTry env noteText emptyEffects with
  | (Except.ok r, s) => (r, s)
  | (Except.error e, s) => (Response.serverError e, s)

/-! ## Helper lemmas -/

theorem strData_append (s t : String) : (s ++ t).data = s.data ++ t.data := by
  cases s; cases t; rfl

theorem strAppend_assoc (a b c : String) : a ++ b ++ c = a ++ (b ++ c) := by
  apply String.ext
  rw [strData_append, strData_append, strData_append, strData_append, List.append_assoc]

theorem strEmpty_append (s : String) : "" ++ s = s := by
  apply String.ext
  rw [strData_append]
  exact List.nil_append _

theorem stripJsonFences_cons_ne (c : Char) (cs : List Char) (hc : c ≠ '\x60') :
    stripJsonFences (c :: cs) = c :: stripJsonFences cs := by
  rw [stripJsonFences.eq_def]
  split
  · rename_i heq; injection heq with h1 _; exact absurd h1 hc
  · rename_i heq; injection heq with h1 _; exact absurd h1 hc
  · rename_i heq; injection heq with h1 h2; rw [h1, h2]
  · rename_i heq; exact absurd heq (List.cons_ne_nil c cs)

theorem stripFences_cons_ne (c : Char) (cs : List Char) (hc : c ≠ '\x60') :
    stripFences (c :: cs) = c :: stripFences cs := by
  rw [stripFences.eq_def]
  split
  · rename_i heq; injection heq with h1 _; exact absurd h1 hc
  · rename_i heq; injection heq with h1 _; exact absurd h1 hc
  · rename_i heq; injection heq with h1 h2; rw [h1, h2]
  · rename_i heq; exact absurd heq (List.cons_ne_nil c cs)

theorem stripJsonFences_append_no_tick (l r : List Char) (h : '\x60' ∉ l) :
    stripJsonFences (l ++ r) = l ++ stripJsonFences r := by
  induction l with
  | nil => simp
  | cons c cs ih =>
    have hc : c ≠ '\x60' := fun e => h (by simp [e])
    have hcs : '\x60' ∉ cs := fun m => h (List.mem_cons_of_mem _ m)
    rw [List.cons_append, stripJsonFences_cons_ne c _ hc, ih hcs, List.cons_append]

theorem stripFences_append_no_tick (l r : List Char) (h : '\x60' ∉ l) :
    stripFences (l ++ r) = l ++ stripFences r := by
  induction l with
  | nil => simp
  | cons c cs ih =>
    have hc : c ≠ '\x60' := fun e => h (by simp [e])
    have hcs : '\x60' ∉ cs := fun m => h (List.mem_cons_of_mem _ m)
    rw [List.cons_append, stripFences_cons_ne c _ hc, ih hcs, List.cons_append]

theorem stripJsonFences_nil : stripJsonFences [] = [] := rfl

theorem stripFences_nil : stripFences [] = [] := rfl

theorem stripJsonFences_no_tick (l : List Char) (h : '\x60' ∉ l) :
    stripJsonFences l = l := by
  have := stripJsonFences_append_no_tick l [] h
  simpa [stripJsonFences_nil] using this

theorem stripFences_no_tick (l : List Char) (h : '\x60' ∉ l) :
    stripFences l = l := by
  have := stripFences_append_no_tick l [] h
  simpa [stripFences_nil] using this

theorem dropWhileAppendChar (p : Char → Bool) (l r : List Char) :
    (l ++ r).dropWhile p =
      if (l.dropWhile p).isEmpty then r.dropWhile p else l.dropWhile p ++ r := by
  induction l with
  | nil => simp
  | cons c cs ih =>
    by_cases h : p c <;> simp [List.dropWhile_cons, h, ih]

theorem trimChars_append_nl (l : List Char) :
    trimChars (l ++ ['\n']) = trimChars l := by
  unfold trimChars
  rw [dropWhileAppendChar]
  cases hd : l.dropWhile isJsWhitespace with
  | nil => simp [List.dropWhile_cons, isJsWhitespace]
  | cons c cs =>
    simp only [List.isEmpty_cons, Bool.false_eq_true, if_false, List.reverse_append,
      List.reverse_cons, List.reverse_nil, List.nil_append, List.cons_append,
      List.dropWhile_cons]
    simp [isJsWhitespace]

/-- Stripping the fences from a fenced payload containing no backticks of
its own yields the payload (up to the trailing newline removed by trim). -/
theorem cleanQuiz_fenced (s : String) (h : '\x60' ∉ s.data) :
    cleanQuiz ("\x60\x60\x60json\n" ++ s ++ "\n\x60\x60\x60") = cleanQuiz s := by
  have hdata : ("\x60\x60\x60json\n" ++ s ++ "\n\x60\x60\x60").data
      = '\x60' :: '\x60' :: '\x60' :: 'j' :: 's' :: 'o' :: 'n' :: '\n' ::
        (s.data ++ ['\n', '\x60', '\x60', '\x60']) := by
    rw [strData_append, strData_append, List.append_assoc]
    rfl
  unfold cleanQuiz
  rw [hdata]
  rw [show stripJsonFences ('\x60' :: '\x60' :: '\x60' :: 'j' :: 's' :: 'o' :: 'n' :: '\n' ::
        (s.data ++ ['\n', '\x60', '\x60', '\x60']))
      = stripJsonFences (s.data ++ ['\n', '\x60', '\x60', '\x60']) from rfl]
  rw [stripJsonFences_append_no_tick _ _ h]
  rw [show stripJsonFences ['\n', '\x60', '\x60', '\x60'] = ['\n', '\x60', '\x60', '\x60'] from rfl]
  rw [stripFences_append_no_tick _ _ h]
  rw [show stripFences ['\n', '\x60', '\x60', '\x60'] = ['\n'] from rfl]
  rw [trimChars_append_nl]
  rw [stripJsonFences_no_tick _ h, stripFences_no_tick _ h]

/-- The extraction loop touches only the library-invocation log: it
performs no unlinks and no AI calls. -/
theorem extractLoopM_effects (env : Env) (files : List UploadedFile) :
    ∀ (acc : String) (s : Effects),
      (extractLoopM env files acc s).2.aiCalls = s.aiCalls ∧
      (extractLoopM env files acc s).2.unlinked = s.unlinked := by
  induction files with
  | nil => intro acc s; exact ⟨rfl, rfl⟩
  | cons f fs ih =>
    intro acc s
    simp only [extractLoopM, M.bind, extractTextM]
    cases hx : extractTextFromFile env f.path with
    | mk r libs =>
      cases r with
      | ok t => simpa using ih _ _
      | error e => simp

/-- With at least one uploaded file, the `try` block of the multi-file
summarize handler always throws (either an extraction error in the loop,
or the ReferenceError on the post-loop read of `extractedText`), having
performed no unlinks and no AI calls. -/
theorem summarizeMultiTry_error (env : Env) (files : List UploadedFile)
    (hne : files ≠ []) (s : Effects) :
    ∃ e s', summarizeMultiTry env files s = (Except.error e, s') ∧
      s'.aiCalls = s.aiCalls ∧ s'.unlinked = s.unlinked := by
  unfold summarizeMultiTry
  have hlen : (files.length == 0) = false := by
    cases files with
    | nil => exact absurd rfl hne
    | cons f fs => simp
  simp only [hlen, Bool.false_eq_true, if_false]
  simp only [M.bind]
  cases hx : extractLoopM env files "" s with
  | mk r s2 =>
    have heff := extractLoopM_effects env files "" s
    rw [hx] at heff
    cases r with
    | error e => exact ⟨e, s2, rfl, heff.1, heff.2⟩
    | ok ct =>
      refine ⟨"extractedText is not defined", s2, ?_, heff.1, heff.2⟩
      simp [lookupStrM, List.find?]

/-- When the extraction loop itself succeeds, the thrown error is exactly
the ReferenceError for `extractedText`. -/
theorem summarizeMultiTry_refError (env : Env) (files : List UploadedFile)
    (hne : files ≠ []) (s : Effects) (ct : String)
    (hloop : (extractLoopM env files "" s).1 = Except.ok ct) :
    (summarizeMultiTry env files s).1 = Except.error "extractedText is not defined" := by
  unfold summarizeMultiTry
  have hlen : (files.length == 0) = false := by
    cases files with
    | nil => exact absurd rfl hne
    | cons f fs => simp
  simp only [hlen, Bool.false_eq_true, if_false, M.bind]
  cases hx : extractLoopM env files "" s with
  | mk r s2 =>
    rw [hx] at hloop
    simp only at hloop
    rw [hloop]
    simp [lookupStrM]

/-- The single-file summarize route unlinks the uploaded file on every
path: extraction error, empty-content rejection, AI failure, success. -/
theorem summarizeSingle_unlinks (env : Env) (file : UploadedFile) :
    file.path ∈ (summarizeSingle env (some file)).2.unlinked := by
  unfold summarizeSingle summarizeSingleTry
  simp only [M.bind, extractTextM]
  cases hx : extractTextFromFile env file.path with
  | mk r libs =>
    cases r with
    | error e => simp [emptyEffects]
    | ok t =>
      by_cases hemp : (t == "" || (trimChars t.data).length == 0) = true
      · simp [hemp, M.bind, unlink, M.pure, emptyEffects]
      · rw [Bool.not_eq_true] at hemp
        simp only [hemp, Bool.false_eq_true, if_false]
        cases hai : env.ai (summaryPrompt t) with
        | ok sum => simp [M.bind, callAI, hai, unlink, M.pure, emptyEffects]
        | error e => simp [M.bind, callAI, hai, emptyEffects]

/-- Behaviour of the single-file summarize route after a successful
extraction: whitespace-only text yields the 400 empty-content rejection;
non-whitespace text plus a successful AI call yields the success payload. -/
theorem summarizeSingle_behavior (env : Env) (file : UploadedFile) (t : String)
    (hx : (extractTextFromFile env file.path).1 = Except.ok t) :
    (trimChars t.data = [] →
      (summarizeSingle env (some file)).1 =
        Response.badRequest "Could not extract text from file. File may be empty or corrupted.") ∧
    (∀ summary, trimChars t.data ≠ [] → env.ai (summaryPrompt t) = Except.ok summary →
      (summarizeSingle env (some file)).1 =
        Response.ok ⟨file.originalname, summary, t.length, summary.length⟩) := by
  unfold summarizeSingle summarizeSingleTry
  simp only [M.bind, extractTextM]
  cases hx2 : extractTextFromFile env file.path with
  | mk r libs =>
    rw [hx2] at hx
    simp only at hx
    rw [hx]
    constructor
    · intro htrim
      have hcond : (t == "" || (trimChars t.data).length == 0) = true := by
        rw [htrim]; simp
      simp [hcond, M.bind, unlink, M.pure]
    · intro sum htrim hai
      have ht : t ≠ "" := by
        intro e
        apply htrim
        rw [e]
        rfl
      have hcond : (t == "" || (trimChars t.data).length == 0) = false := by
        rw [Bool.or_eq_false_iff]
        constructor
        · exact beq_eq_false_iff_ne.mpr ht
        · exact beq_eq_false_iff_ne.mpr (fun hlen => htrim (List.length_eq_zero.mp hlen))
      simp [hcond, M.bind, callAI, hai, unlink, M.pure]

/-- With a truthy `noteText`, the quiz route fails on the unresolved
`model` identifier: 500 ReferenceError, and no effects at all (in
particular no AI call). -/
theorem quizRoute_modelRefError (env : Env) (note : String) (h : note ≠ "") :
    quizRoute env (some note) = (Response.serverError "model is not defined", emptyEffects) := by
  unfold quizRoute quizTry
  have hb : (note == "") = false := beq_eq_false_iff_ne.mpr h
  simp [jsTruthy, hb, M.bind, lookupStrM, M.throw]

/-! ## Concrete witnesses' data -/

/-- Environment whose text-file reader extracts `hello`; the AI yields
`SUMMARY`; `JSON.parse` rejects its input. -/
def envTxtHello : Env :=
  ⟨fun _ => Except.error "pdf-parse error",
   fun _ => Except.error "mammoth error",
   fun _ => Except.error "officeparser error",
   fun _ => Except.ok "hello",
   fun _ => Except.ok "SUMMARY",
   fun _ => Except.error "Unexpected token"⟩

/-- Environment whose text-file reader extracts whitespace only. -/
def envTxtBlank : Env :=
  ⟨fun _ => Except.error "pdf-parse error",
   fun _ => Except.error "mammoth error",
   fun _ => Except.error "officeparser error",
   fun _ => Except.ok "   ",
   fun _ => Except.ok "SUMMARY",
   fun _ => Except.error "Unexpected token"⟩

/-- A parsed quiz whose single question has 3 options and answer index 7 —
it violates the per-question invariant but has an array-valued
`questions` field. -/
def badQuizJson : JsonVal :=
  JsonVal.obj [("questions", JsonVal.arr [JsonVal.obj
    [("question", JsonVal.str "What is the main concept?"),
     ("options", JsonVal.arr [JsonVal.str "Option A", JsonVal.str "Option B",
                              JsonVal.str "Option C"]),
     ("correctAnswer", JsonVal.num 7)]])]

/-- Environment whose `JSON.parse` returns `badQuizJson`. -/
def envBadQuiz : Env :=
  ⟨fun _ => Except.error "pdf-parse error",
   fun _ => Except.error "mammoth error",
   fun _ => Except.error "officeparser error",
   fun _ => Except.ok "hello",
   fun _ => Except.ok "SUMMARY",
   fun _ => Except.ok badQuizJson⟩

/-- A text upload as multer records it. -/
def fileA : UploadedFile := ⟨"a.txt", "uploads/1-a.txt"⟩

/-- Parameterised two-text environment for the aggregation claim. -/
def envPair (x y : String) : Env :=
  ⟨fun _ => Except.error "pdf-parse error",
   fun _ => Except.error "mammoth error",
   fun _ => Except.error "officeparser error",
   fun p => if p == "uploads/a.txt" then Except.ok x else Except.ok y,
   fun _ => Except.ok "SUMMARY",
   fun _ => Except.error "Unexpected token"⟩

/-! ## Claim theorems -/

/-- C1 (counterexample): in the multi-file summarize handler
(`src/backend/server.js`), a request whose single `.txt` upload extracts
to whitespace-only text does NOT produce the 400 `EmptyContent`
rejection: the post-loop read of the loop-scoped `extractedText` throws
first, so the request ends as a 500 ReferenceError response. -/
theorem c1_empty_content_counterexample :
    (summarizeMulti envTxtBlank [⟨"blank.txt", "uploads/1-blank.txt"⟩]).1
      = Response.serverError "extractedText is not defined" ∧
    (summarizeMulti envTxtBlank [⟨"blank.txt", "uploads/1-blank.txt"⟩]).1
      ≠ Response.badRequest "Could not extract text from file. File may be empty or corrupted." := by
  exact ⟨rfl, by decide⟩

/-- C1 (amended): in the single-file summarize handler
(`src/unnamed/part_000`), extraction that trims to empty text fails with
the 400 `Could not extract text from file` (EmptyContent) rejection and
never silently succeeds, while extraction yielding non-whitespace text
(with a successful AI call) produces the success response with that
text's length; in the multi-file handler the EmptyContent check is never
reached — such requests end in the 500 catch-all instead. -/
theorem c1_empty_content_amended :
    ∀ (env : Env) (file : UploadedFile) (t : String),
      (extractTextFromFile env file.path).1 = Except.ok t →
      ((trimChars t.data = [] →
         (summarizeSingle env (some file)).1 =
           Response.badRequest "Could not extract text from file. File may be empty or corrupted.") ∧
       (∀ summary, trimChars t.data ≠ [] → env.ai (summaryPrompt t) = Except.ok summary →
         (summarizeSingle env (some file)).1 =
           Response.ok ⟨file.originalname, summary, t.length, summary.length⟩)) := by
  intro env file t hx
  exact summarizeSingle_behavior env file t hx

/-- C1 (witness): at a whitespace-only `.txt` extraction the single-file
route answers 400 EmptyContent, and at a `hello` extraction it answers
200 with the AI's summary. -/
theorem c1_empty_content_witness :
    (summarizeSingle envTxtBlank (some fileA)).1 =
      Response.badRequest "Could not extract text from file. File may be empty or corrupted." ∧
    (summarizeSingle envTxtHello (some fileA)).1 =
      Response.ok ⟨"a.txt", "SUMMARY", 5, 7⟩ :=
  ⟨(c1_empty_content_amended envTxtBlank fileA "   " rfl).1 (by decide),
   (c1_empty_content_amended envTxtHello fileA "hello" rfl).2 "SUMMARY" (by decide) rfl⟩

/-- C2: in the multi-file summarize handler, every request with at least
one file ends in the 500 catch-all with no AI call ever made (the
success and EmptyContent branches are unreachable); when the extraction
loop itself succeeds, the thrown error is exactly the ReferenceError on
the loop-scoped `extractedText` read at line 246. -/
theorem c2_postloop_reference_error :
    ∀ (env : Env) (files : List UploadedFile), files ≠ [] →
      ((summarizeMulti env files).1.isServerError = true ∧
       (summarizeMulti env files).2.aiCalls = [] ∧
       ∀ ct, (extractLoopM env files "" emptyEffects).1 = Except.ok ct →
         (summarizeMulti env files).1 = Response.serverError "extractedText is not defined") := by
  intro env files hne
  obtain ⟨e, s', heq, hai, _⟩ := summarizeMultiTry_error env files hne emptyEffects
  unfold summarizeMulti
  rw [heq]
  refine ⟨rfl, hai, ?_⟩
  intro ct hloop
  have h2 := summarizeMultiTry_refError env files hne emptyEffects ct hloop
  rw [heq] at h2
  simp only at h2
  rw [h2]

/-- C2 (witness): a request with one `hello` text file — the loop
succeeds, and the response is the 500 ReferenceError. -/
theorem c2_postloop_reference_error_witness :
    (summarizeMulti envTxtHello [fileA]).1
      = Response.serverError "extractedText is not defined" :=
  (c2_postloop_reference_error envTxtHello [fileA] (List.cons_ne_nil _ _)).2.2
    "\n\n=== a.txt ===\n\nhello" rfl

/-- C3: every `/api/generate-quiz` request with a non-empty `noteText`
ends as the 500 ReferenceError `model is not defined` with no effects at
all — in particular no AI call, so the fence-stripping, JSON parsing and
schema validation code after the `model.generateContent` line is
unreachable. -/
theorem c3_quiz_model_undefined :
    ∀ (env : Env) (note : String), note ≠ "" →
      quizRoute env (some note)
        = (Response.serverError "model is not defined", emptyEffects) := by
  intro env note h
  exact quizRoute_modelRefError env note h

/-- C3 (witness): the scenario note text. -/
theorem c3_quiz_model_undefined_witness :
    quizRoute envTxtHello (some "Photosynthesis converts light into energy.")
      = (Response.serverError "model is not defined", emptyEffects) :=
  c3_quiz_model_undefined envTxtHello "Photosynthesis converts light into energy." (by decide)

/-- C4 (counterexample): on the end-to-end scenario input the quiz route
returns the 500 ReferenceError, not a 5-question QuizSet; and the
validation code, taken alone, accepts a `questions` array whose single
question has 3 options and answer index 7 — no per-question invariant is
enforced. -/
theorem c4_quiz_invariant_counterexample :
    (quizRoute envTxtHello (some "Photosynthesis converts light into energy.")).1
      = Response.serverError "model is not defined" ∧
    quizPostProcess envBadQuiz "a quiz response with a 3-option question"
      = Except.ok badQuizJson := by
  exact ⟨rfl, rfl⟩

/-- C4 (amended): `generateQuiz` never returns any QuizSet: every
`/api/generate-quiz` request ends in an error response (400 for a
missing/empty `noteText`, otherwise the 500 from the undefined `model`
identifier), so no quiz — conforming to the 4-option invariant or not —
is ever surfaced to the caller. -/
theorem c4_quiz_never_returns_quizset :
    ∀ (env : Env) (noteText : Option String),
      ((quizRoute env noteText).1).isOk = false := by
  intro env nt
  cases nt with
  | none => rfl
  | some s =>
    by_cases hs : s = ""
    · rw [hs]; rfl
    · rw [quizRoute_modelRefError env s hs]; rfl

/-- C5: with a missing or empty `noteText` both the chat and the quiz
routes answer the 400 `required` rejection with no effects — in
particular the AI service is not invoked — regardless of the question. -/
theorem c5_empty_note_rejected :
    ∀ (env : Env) (q : Option String),
      chatRoute env none q
        = (Response.badRequest "Both noteText and question are required.", emptyEffects) ∧
      chatRoute env (some "") q
        = (Response.badRequest "Both noteText and question are required.", emptyEffects) ∧
      quizRoute env none
        = (Response.badRequest "noteText is required.", emptyEffects) ∧
      quizRoute env (some "")
        = (Response.badRequest "noteText is required.", emptyEffects) := by
  intro env q
  exact ⟨rfl, rfl, rfl, rfl⟩

/-- C6: aggregation places before each document's text a header exactly
of the form `\n\n=== <name> ===\n\n` and preserves upload order: for two
documents the corpus is A's header, then x, then B's header, then y; and
the handler's extraction loop produces exactly this aggregate. -/
theorem c6_aggregate_order :
    ∀ (A B x y : String),
      aggregate [(A, x), (B, y)] =
        "\n\n=== " ++ A ++ " ===\n\n" ++ x ++ "\n\n=== " ++ B ++ " ===\n\n" ++ y ∧
      (extractLoopM (envPair x y) [⟨A, "uploads/a.txt"⟩, ⟨B, "uploads/b.txt"⟩] ""
          emptyEffects).1
        = Except.ok (aggregate [(A, x), (B, y)]) := by
  intro A B x y
  constructor
  · show (("" ++ mkHeader A ++ x) ++ mkHeader B ++ y) = _
    unfold mkHeader
    rw [strEmpty_append]
    simp only [strAppend_assoc]
  · rfl

/-- C7: the quiz post-processing strips the ```` ```json ```` / ```` ``` ````
fence markers and trims before parsing, so a response that is valid quiz
JSON wrapped in fences is processed to the same string — and hence
parses to the same QuizSet — as the bare JSON. -/
theorem c7_fence_stripping :
    ∀ (s : String), '\x60' ∉ s.data →
      cleanQuiz ("\x60\x60\x60json\n" ++ s ++ "\n\x60\x60\x60") = cleanQuiz s ∧
      ∀ (env : Env),
        quizPostProcess env ("\x60\x60\x60json\n" ++ s ++ "\n\x60\x60\x60")
          = quizPostProcess env s := by
  intro s h
  have hc := cleanQuiz_fenced s h
  refine ⟨hc, fun env => ?_⟩
  unfold quizPostProcess
  rw [hc]

/-- C7 (witness): a fenced JSON object cleans to the same string as the
bare one. -/
theorem c7_fence_stripping_witness :
    cleanQuiz ("\x60\x60\x60json\n" ++ "\x7b\"questions\": []\x7d" ++ "\n\x60\x60\x60")
      = cleanQuiz "\x7b\"questions\": []\x7d" :=
  (c7_fence_stripping "\x7b\"questions\": []\x7d" (by decide)).1

/-- C8: when `JSON.parse` rejects the cleaned AI response, the quiz
post-processing fails with exactly that parse error and returns no
QuizSet at all — no partial recovery is attempted. -/
theorem c8_parse_failure_no_recovery :
    ∀ (env : Env) (responseText e : String),
      env.jsonParse (cleanQuiz responseText) = Except.error e →
      quizPostProcess env responseText = Except.error e ∧
      ∀ j, quizPostProcess env responseText ≠ Except.ok j := by
  intro env r e h
  unfold quizPostProcess
  simp only [h]
  exact ⟨trivial, fun j => by simp⟩

/-- C8 (witness): a non-JSON response fails with the parser's error. -/
theorem c8_parse_failure_no_recovery_witness :
    quizPostProcess envTxtHello "This is not JSON"
      = Except.error "Unexpected token" :=
  (c8_parse_failure_no_recovery envTxtHello "This is not JSON" "Unexpected token" rfl).1

/-- C9: for any path whose lowercased extension is outside the allow-list
the dispatcher throws `Unsupported file type` and invokes no extraction
library (the invocation log is empty), for every environment. -/
theorem c9_unsupported_format :
    ∀ (env : Env) (filePath : String),
      strToLower (extname filePath) ∉ ([".pdf", ".docx", ".pptx", ".txt"] : List String) →
      extractTextFromFile env filePath = (Except.error "Unsupported file type", []) := by
  intro env fp h
  unfold extractTextFromFile
  have h1 : (strToLower (extname fp) == ".pdf") = false :=
    beq_eq_false_iff_ne.mpr (fun e => h (by rw [e]; simp))
  have h2 : (strToLower (extname fp) == ".docx") = false :=
    beq_eq_false_iff_ne.mpr (fun e => h (by rw [e]; simp))
  have h3 : (strToLower (extname fp) == ".pptx") = false :=
    beq_eq_false_iff_ne.mpr (fun e => h (by rw [e]; simp))
  have h4 : (strToLower (extname fp) == ".txt") = false :=
    beq_eq_false_iff_ne.mpr (fun e => h (by rw [e]; simp))
  simp [h1, h2, h3, h4]

/-- C9 (witness): an `.exe` upload. -/
theorem c9_unsupported_format_witness :
    extractTextFromFile envTxtHello "uploads/1-notes.exe"
      = (Except.error "Unsupported file type", []) :=
  c9_unsupported_format envTxtHello "uploads/1-notes.exe" (by decide)

/-- C10: every uploaded file is unlinked before the response on every
exit path: in the multi-file handler each uploaded file's path is in the
unlink log of the final result, and the single-file handler unlinks its
file on extraction failure, empty-content rejection, AI failure and
success alike. -/
theorem c10_cleanup_every_path :
    (∀ (env : Env) (files : List UploadedFile) (f : UploadedFile),
       f ∈ files → f.path ∈ (summarizeMulti env files).2.unlinked) ∧
    (∀ (env : Env) (file : UploadedFile),
       file.path ∈ (summarizeSingle env (some file)).2.unlinked) := by
  constructor
  · intro env files f hf
    have hne : files ≠ [] := by
      rintro rfl
      simp at hf
    obtain ⟨e, s', heq, _, hun⟩ := summarizeMultiTry_error env files hne emptyEffects
    unfold summarizeMulti
    rw [heq]
    simp only [hun]
    simpa [emptyEffects] using List.mem_map_of_mem (fun g => g.path) hf
  · intro env file
    exact summarizeSingle_unlinks env file

/-- C10 (witness): a concrete one-file request on each handler. -/
theorem c10_cleanup_every_path_witness :
    fileA.path ∈ (summarizeMulti envTxtHello [fileA]).2.unlinked ∧
    fileA.path ∈ (summarizeSingle envTxtHello (some fileA)).2.unlinked :=
  ⟨c10_cleanup_every_path.1 envTxtHello [fileA] fileA (List.mem_cons_self _ _),
   c10_cleanup_every_path.2 envTxtHello fileA⟩
